import Mathlib

/-!
# Fractal engine: verified embedding

A shallow embedding of the fractal-engine library (`src/index.ts`): escape-time
iteration functions (`mandelbrot`, `julia`, `burningShip`), the color mapper
(`getColor` with its `hslToRgb` helper), and the renderer (`renderFractal`).

Points and configuration fields are rationals (every finite IEEE double is a
rational, and all loop arithmetic in the source is exact on the values we
reason about); the smoothed escape value uses `Real.logb` for `Math.log2` and
real `rpow` for `Math.pow`, so the iteration functions return reals.
-/

open Real (logb)

/-- The five color schemes of `FractalConfig.colorScheme`. -/
inductive ColorScheme : Type
  | fire
  | rainbow
  | grayscale
  | ocean
  | sunset
deriving DecidableEq, Repr

/-- `interface Point`: a complex-plane point. -/
structure Point where
  x : ℚ
  y : ℚ
deriving DecidableEq, Repr

/-- `interface FractalConfig` (already merged over defaults: the source merges
the partial configuration over `DEFAULT_CONFIG` before use, so every function
sees a full record). -/
structure FractalConfig where
  maxIterations : ℕ
  escapeRadius : ℚ
  colorScheme : ColorScheme
  offsetX : ℚ
  offsetY : ℚ
  zoom : ℚ
deriving DecidableEq, Repr

/-- `DEFAULT_CONFIG` from the source. -/
def DEFAULT_CONFIG : FractalConfig :=
  { maxIterations := 256
    escapeRadius := 4
    colorScheme := ColorScheme.rainbow
    offsetX := -(1/2)
    offsetY := 0
    zoom := 1 }

/-- One body of the `mandelbrot`/`julia` while loop:
`temp = zr*zr - zi*zi + c.x; zi = 2*zr*zi + c.y; zr = temp`. -/
def mandelStep (cx cy : ℚ) (z : ℚ × ℚ) : ℚ × ℚ :=
  (z.1 * z.1 - z.2 * z.2 + cx, 2 * z.1 * z.2 + cy)

/-- One body of the `burningShip` while loop:
`temp = zr*zr - zi*zi + c.x; zi = Math.abs(2*zr*zi) + c.y; zr = Math.abs(temp)`. -/
def burningShipStep (cx cy : ℚ) (z : ℚ × ℚ) : ℚ × ℚ :=
  (|z.1 * z.1 - z.2 * z.2 + cx|, |2 * z.1 * z.2| + cy)

/-- The burning-ship update as claim C2 words it: absolute value applied to
each full component, so the imaginary part becomes `|2*zr*zi + cy|` (constant
inside the absolute value).  Kept side by side with `burningShipStep`, which
is the update the source actually performs. -/
def burningShipStepClaimed (cx cy : ℚ) (z : ℚ × ℚ) : ℚ × ℚ :=
  (|z.1 * z.1 - z.2 * z.2 + cx|, |2 * z.1 * z.2 + cy|)

/-- The shared while loop
`while (zr*zr + zi*zi < cfg.escapeRadius && iter < cfg.maxIterations)`,
with `fuel = maxIterations - iter` as the decreasing measure.  Returns the
final `(zr, zi)` and the number of iterations performed. -/
def orbitLoop (stepf : ℚ × ℚ → ℚ × ℚ) (radius : ℚ) : ℕ → ℚ × ℚ → ℚ × ℚ × ℕ
  | 0, z => (z.1, z.2, 0)
  | fuel + 1, z =>
      if z.1 * z.1 + z.2 * z.2 < radius then
        let r := orbitLoop stepf radius fuel (stepf z)
        (r.1, r.2.1, r.2.2 + 1)
      else
        (z.1, z.2, 0)

/-- Final loop state of `mandelbrot c cfg` (starts at `zr = 0, zi = 0`). -/
def mandelFinal (c : Point) (cfg : FractalConfig) : ℚ × ℚ × ℕ :=
  orbitLoop (mandelStep c.x c.y) cfg.escapeRadius cfg.maxIterations (0, 0)

/-- Final loop state of `julia z c cfg` (starts at `zr = z.x, zi = z.y`). -/
def juliaFinal (z c : Point) (cfg : FractalConfig) : ℚ × ℚ × ℕ :=
  orbitLoop (mandelStep c.x c.y) cfg.escapeRadius cfg.maxIterations (z.x, z.y)

/-- Final loop state of `burningShip c cfg` (starts at `zr = 0, zi = 0`). -/
def shipFinal (c : Point) (cfg : FractalConfig) : ℚ × ℚ × ℕ :=
  orbitLoop (burningShipStep c.x c.y) cfg.escapeRadius cfg.maxIterations (0, 0)

/-- `smooth = iter - Math.log2(Math.log2(zr*zr + zi*zi)) + 4`, divided by
`maxIterations`. -/
noncomputable def smoothValue (iter : ℕ) (zr zi : ℚ) (maxIter : ℕ) : ℝ :=
  ((iter : ℝ) - logb 2 (logb 2 ((zr : ℝ) * zr + zi * zi)) + 4) / (maxIter : ℝ)

/-- `mandelbrot(c, config)` from the source. -/
noncomputable def mandelbrot (c : Point) (cfg : FractalConfig) : ℝ :=
  let r := mandelFinal c cfg
  if r.2.2 = cfg.maxIterations then 1
  else smoothValue r.2.2 r.1 r.2.1 cfg.maxIterations

/-- `julia(z, c, config)` from the source. -/
noncomputable def julia (z c : Point) (cfg : FractalConfig) : ℝ :=
  let r := juliaFinal z c cfg
  if r.2.2 = cfg.maxIterations then 1
  else smoothValue r.2.2 r.1 r.2.1 cfg.maxIterations

/-- `burningShip(c, config)` from the source: no log-smoothing, so the result
is rational and computable. -/
def burningShip (c : Point) (cfg : FractalConfig) : ℚ :=
  let r := shipFinal c cfg
  if r.2.2 = cfg.maxIterations then 1
  else (r.2.2 : ℚ) / (cfg.maxIterations : ℚ)

/-- `burningShip` as it would read with claim C2's update rule in place of
the source's; used to compare the two rules. -/
def burningShipClaimed (c : Point) (cfg : FractalConfig) : ℚ :=
  let r := orbitLoop (burningShipStepClaimed c.x c.y) cfg.escapeRadius cfg.maxIterations (0, 0)
  if r.2.2 = cfg.maxIterations then 1
  else (r.2.2 : ℚ) / (cfg.maxIterations : ℚ)

/-- The `hue2rgb` closure inside `hslToRgb`, with its two sequential
wrap-arounds and the three-piece hue ramp. -/
noncomputable def hue2rgb (p q t : ℝ) : ℝ :=
  let t1 := if t < 0 then t + 1 else t
  let t2 := if t1 > 1 then t1 - 1 else t1
  if t2 < 1/6 then p + (q - p) * 6 * t2
  else if t2 < 1/2 then q
  else if t2 < 2/3 then p + (q - p) * (2/3 - t2) * 6
  else p

/-- `hslToRgb(h, s, l)` from the source. -/
noncomputable def hslToRgb (h s l : ℝ) : ℤ × ℤ × ℤ :=
  if s = 0 then (⌊l * 255⌋, ⌊l * 255⌋, ⌊l * 255⌋)
  else
    let q := if l < 1/2 then l * (1 + s) else l + s - l * s
    let p := 2 * l - q
    (⌊hue2rgb p q (h + 1/3) * 255⌋, ⌊hue2rgb p q h * 255⌋, ⌊hue2rgb p q (h - 1/3) * 255⌋)

/-- `getColor(t, scheme)` from the source. -/
noncomputable def getColor (t : ℝ) (scheme : ColorScheme) : ℤ × ℤ × ℤ :=
  if 1 ≤ t then (0, 0, 0)
  else
    match scheme with
    | ColorScheme.fire => (⌊255 * t⌋, ⌊255 * t * t⌋, 0)
    | ColorScheme.rainbow => hslToRgb (t * 360 / 360) 1 (1/2)
    | ColorScheme.grayscale => (⌊255 * t⌋, ⌊255 * t⌋, ⌊255 * t⌋)
    | ColorScheme.ocean => (⌊0 + 50 * t⌋, ⌊50 * t + 100 * t * t⌋, ⌊100 + 155 * t⌋)
    | ColorScheme.sunset =>
        (⌊255 * t ^ ((7 : ℝ)/10)⌋, ⌊100 * t⌋, ⌊50 + 205 * (1 - t)⌋)

/-- The complex-plane viewport computed by `renderFractal` from zoom/offset
and the canvas dimensions. -/
structure Viewport where
  xMin : ℚ
  xMax : ℚ
  yMin : ℚ
  yMax : ℚ
deriving DecidableEq, Repr

/-- Viewport derivation in `renderFractal`: `scale = 3 / cfg.zoom`,
`xMin, xMax = offsetX ∓ scale/2` and
`yMin, yMax = offsetY ∓ (scale*height/width)/2`. -/
def viewport (cfg : FractalConfig) (width height : ℕ) : Viewport :=
  let scale := 3 / cfg.zoom
  { xMin := cfg.offsetX - scale / 2
    xMax := cfg.offsetX + scale / 2
    yMin := cfg.offsetY - (scale * height / width) / 2
    yMax := cfg.offsetY + (scale * height / width) / 2 }

/-- The per-pixel `switch (type)` of `renderFractal`: `'mandelbrot'` and
`'burningShip'` have cases, everything else falls to the `default:` branch,
which calls `julia` with the supplied-or-default constant. -/
noncomputable def pixelValue (type : String) (cfg : FractalConfig) (jc : Point)
    (x y : ℚ) : ℝ :=
  if type = "mandelbrot" then mandelbrot ⟨x, y⟩ cfg
  else if type = "burningShip" then ((burningShip ⟨x, y⟩ cfg : ℚ) : ℝ)
  else julia ⟨x, y⟩ jc cfg

/-- The four RGBA bytes `[r, g, b, 255]` written for pixel `(px, py)`. -/
noncomputable def renderPixel (type : String) (cfg : FractalConfig) (jc : Point)
    (width height px py : ℕ) : List ℤ :=
  let vp := viewport cfg width height
  let xScale := (vp.xMax - vp.xMin) / (width : ℚ)
  let yScale := (vp.yMax - vp.yMin) / (height : ℚ)
  let x := vp.xMin + (px : ℚ) * xScale
  let y := vp.yMin + (py : ℚ) * yScale
  let t := pixelValue type cfg jc x y
  let c := getColor t cfg.colorScheme
  [c.1, c.2.1, c.2.2, 255]

/-- The full RGBA buffer written by the pixel loop, row-major
(`py` outer, `px` inner), matching offsets `(py*width + px)*4`. -/
noncomputable def renderBuffer (type : String) (cfg : FractalConfig) (jc : Point)
    (width height : ℕ) : List ℤ :=
  (List.range height).flatMap fun py =>
    (List.range width).flatMap fun px =>
      renderPixel type cfg jc width height px py

/-- A caller-supplied canvas: dimensions plus the 2d drawing context, `none`
when `canvas.getContext('2d')` is unavailable.  The context holds the
committed RGBA byte buffer. -/
structure Canvas where
  width : ℕ
  height : ℕ
  ctx : Option (List ℤ)
deriving DecidableEq, Repr

/-- The default Julia constant `{ x: -0.7, y: 0.27015 }` used when `juliaC`
is omitted. -/
def defaultJuliaC : Point := ⟨-(7/10), 27015/100000⟩

/-- `renderFractal(canvas, type, config, juliaC)`: no-op when the context is
missing, otherwise computes every pixel and commits the buffer via a single
`putImageData`. -/
noncomputable def renderFractal (canvas : Canvas) (type : String)
    (cfg : FractalConfig) (juliaC : Option Point) : Canvas :=
  match canvas.ctx with
  | none => canvas
  | some _ =>
      { canvas with
          ctx := some (renderBuffer type cfg (juliaC.getD defaultJuliaC)
            canvas.width canvas.height) }

/-! ## Loop lemmas -/

/-- The loop performs at most `fuel` iterations. -/
lemma orbitLoop_count_le (stepf : ℚ × ℚ → ℚ × ℚ) (radius : ℚ) :
    ∀ (fuel : ℕ) (z : ℚ × ℚ), (orbitLoop stepf radius fuel z).2.2 ≤ fuel := by
  intro fuel
  induction fuel with
  | zero => intro z; exact le_rfl
  | succ n ih =>
    intro z
    rw [orbitLoop]
    by_cases h : z.1 * z.1 + z.2 * z.2 < radius
    · rw [if_pos h]
      exact Nat.succ_le_succ (ih (stepf z))
    · rw [if_neg h]
      exact Nat.zero_le _

/-- If an invariant below the escape radius is preserved by the step, the
loop exhausts all its fuel. -/
lemma orbitLoop_count_of_inv (stepf : ℚ × ℚ → ℚ × ℚ) (radius : ℚ) (inv : ℚ × ℚ → Prop)
    (hstep : ∀ z, inv z → inv (stepf z))
    (hcond : ∀ z, inv z → z.1 * z.1 + z.2 * z.2 < radius) :
    ∀ (fuel : ℕ) (z : ℚ × ℚ), inv z → (orbitLoop stepf radius fuel z).2.2 = fuel := by
  intro fuel
  induction fuel with
  | zero => intro z _; rfl
  | succ n ih =>
    intro z hz
    rw [orbitLoop, if_pos (hcond z hz)]
    exact congrArg (fun k => k + 1) (ih (stepf z) (hstep z hz))

/-- The claimed burning-ship orbit mirrors the source's: starting from
`(r, |i|)` instead of `(r, i)` (with `0 ≤ r`), the claimed step keeps the
imaginary part equal to the absolute value of the source's, so both loops
take the same number of iterations. -/
lemma shipClaimed_count_eq (cx cy radius : ℚ) :
    ∀ (fuel : ℕ) (r i : ℚ), 0 ≤ r →
      (orbitLoop (burningShipStepClaimed cx cy) radius fuel (r, |i|)).2.2 =
        (orbitLoop (burningShipStep cx cy) radius fuel (r, i)).2.2 := by
  intro fuel
  induction fuel with
  | zero => intro r i hr; rfl
  | succ n ih =>
    intro r i hr
    have habs : |i| * |i| = i * i := abs_mul_abs_self i
    have h2r : |2 * r * i| = 2 * r * |i| := by
      rw [abs_mul, abs_of_nonneg (by linarith : (0 : ℚ) ≤ 2 * r)]
    have hstep : burningShipStepClaimed cx cy (r, |i|) =
        (|r * r - i * i + cx|, abs (|2 * r * i| + cy)) := by
      simp only [burningShipStepClaimed, habs, h2r]
    have hstep2 : burningShipStep cx cy (r, i) =
        (|r * r - i * i + cx|, |2 * r * i| + cy) := rfl
    rw [orbitLoop, orbitLoop, hstep, hstep2, habs]
    by_cases hcond : r * r + i * i < radius
    · rw [if_pos hcond, if_pos hcond]
      exact congrArg (fun k => k + 1)
        (ih (|r * r - i * i + cx|) (|2 * r * i| + cy) (abs_nonneg _))
    · rw [if_neg hcond, if_neg hcond]

/-- If `|c| ≤ 1/4` then the Mandelbrot step keeps `|z| ≤ 1/2`
(stated on squared magnitudes). -/
lemma mandelStep_invariant {cx cy : ℚ} (hc : cx * cx + cy * cy ≤ 1/16) {z : ℚ × ℚ}
    (hz : z.1 * z.1 + z.2 * z.2 ≤ 1/4) :
    (mandelStep cx cy z).1 * (mandelStep cx cy z).1 +
      (mandelStep cx cy z).2 * (mandelStep cx cy z).2 ≤ 1/4 := by
  obtain ⟨zr, zi⟩ := z
  simp only [mandelStep] at hz ⊢
  have hS : (0 : ℚ) ≤ zr * zr + zi * zi := add_nonneg (mul_self_nonneg zr) (mul_self_nonneg zi)
  have hS2 : (zr * zr + zi * zi) ^ 2 ≤ 1/16 := by nlinarith
  have hAB : (zr * zr - zi * zi) ^ 2 + (2 * zr * zi) ^ 2 = (zr * zr + zi * zi) ^ 2 := by ring
  have hCS : ((zr * zr - zi * zi) * cx + (2 * zr * zi) * cy) ^ 2 ≤
      ((zr * zr - zi * zi) ^ 2 + (2 * zr * zi) ^ 2) * (cx * cx + cy * cy) := by
    nlinarith [sq_nonneg ((zr * zr - zi * zi) * cy - (2 * zr * zi) * cx)]
  have hx2 : ((zr * zr - zi * zi) * cx + (2 * zr * zi) * cy) ^ 2 ≤ 1/256 := by
    rw [hAB] at hCS
    calc ((zr * zr - zi * zi) * cx + (2 * zr * zi) * cy) ^ 2
        ≤ (zr * zr + zi * zi) ^ 2 * (cx * cx + cy * cy) := hCS
      _ ≤ (1/16) * (1/16) :=
          mul_le_mul hS2 hc (add_nonneg (mul_self_nonneg cx) (mul_self_nonneg cy)) (by norm_num)
      _ = 1/256 := by norm_num
  have hx : (zr * zr - zi * zi) * cx + (2 * zr * zi) * cy ≤ 1/16 := by nlinarith
  nlinarith [hx, hS2, hc, hAB]

/-! ## Color lemmas -/

/-- A real in `[0, 255]` floors to an integer in `[0, 255]`. -/
lemma floor_mem_byte {x : ℝ} (h0 : 0 ≤ x) (h1 : x ≤ 255) : 0 ≤ ⌊x⌋ ∧ ⌊x⌋ ≤ 255 := by
  constructor
  · exact Int.floor_nonneg.mpr h0
  · have := (Int.floor_le x).trans h1
    exact_mod_cast this

/-- With `p = 0, q = 1` (the parameters the rainbow scheme produces),
`hue2rgb` stays in `[0, 1]` on inputs in `[-1, 2]`. -/
lemma hue2rgb_mem {u : ℝ} (h0 : -1 ≤ u) (h1 : u ≤ 2) :
    0 ≤ hue2rgb 0 1 u ∧ hue2rgb 0 1 u ≤ 1 := by
  simp only [hue2rgb]
  split_ifs <;> constructor <;> linarith

/-! ## Claims -/

/-- Claim C1, counterexample: at `c = (2, 2)` with the default configuration,
`julia(c, c)` and `mandelbrot(c)` differ — `mandelbrot` spends one iteration
moving from `z = 0` to `z = c`, so its smoothed value is larger by exactly
`1/maxIterations`. -/
theorem c1_counterexample :
    julia ⟨2, 2⟩ ⟨2, 2⟩ DEFAULT_CONFIG ≠ mandelbrot ⟨2, 2⟩ DEFAULT_CONFIG := by
  have hm : mandelFinal ⟨2, 2⟩ DEFAULT_CONFIG = (2, 2, 1) := by
    rw [mandelFinal]
    rw [show DEFAULT_CONFIG.maxIterations = 255 + 1 from rfl, orbitLoop]
    rw [show (255 : ℕ) = 254 + 1 from rfl, orbitLoop]
    norm_num [mandelStep, DEFAULT_CONFIG]
  have hj : juliaFinal ⟨2, 2⟩ ⟨2, 2⟩ DEFAULT_CONFIG = (2, 2, 0) := by
    rw [juliaFinal]
    rw [show DEFAULT_CONFIG.maxIterations = 255 + 1 from rfl, orbitLoop]
    norm_num [DEFAULT_CONFIG]
  unfold julia mandelbrot
  rw [hm, hj]
  norm_num [DEFAULT_CONFIG, smoothValue]
  intro hEq
  field_simp at hEq
  linarith

/-- Claim C1, amended: `julia` started at `z₀ = 0` (not `z₀ = c`) computes
exactly `mandelbrot(c)`, for every point `c` and every configuration — both
run the same recurrence from the same starting state `(0, 0)`. -/
theorem c1_amended (c : Point) (cfg : FractalConfig) :
    julia ⟨0, 0⟩ c cfg = mandelbrot c cfg := rfl

/-- Claim C2, counterexample: the source's burning-ship update is not
`(|zr² - zi² + cx|, |2·zr·zi + cy|)`: at state `(zr, zi) = (1, 1)` with
`cx = 0, cy = -3` the source computes `zi = |2| - 3 = -1` while the claimed
rule gives `|2 - 3| = 1`. -/
theorem c2_counterexample :
    burningShipStep 0 (-3) (1, 1) ≠ burningShipStepClaimed 0 (-3) (1, 1) := by
  simp only [burningShipStep, burningShipStepClaimed]
  norm_num

/-- Claim C2, amended: each `burningShip` iteration updates the state as
`(zr, zi) ← (|zr² - zi² + cx|, |2·zr·zi| + cy)` — the absolute value on the
imaginary component is applied to the doubled product only, before the
constant `cy` is added.  Along the orbit the resulting `zi` differs from the
claimed rule's only in sign, so `burningShip`'s return value is the same as
an implementation of the claimed rule. -/
theorem c2_amended (c : Point) (cfg : FractalConfig) :
    burningShipClaimed c cfg = burningShip c cfg := by
  have h := shipClaimed_count_eq c.x c.y cfg.escapeRadius cfg.maxIterations 0 0 le_rfl
  rw [abs_zero] at h
  simp only [burningShipClaimed, burningShip, shipFinal]
  rw [h]

/-- Claim C3, counterexample: the returned value is not always in `[0, 1]`.
At `c = (2³², 0)` with maxIterations = 2 and escapeRadius = 4 the orbit
escapes after one iteration at squared magnitude `2⁶⁴`, and the smoothed
value is `(1 - log2(log2(2⁶⁴)) + 4) / 2 = (1 - 6 + 4)/2 = -1/2 < 0`. -/
theorem c3_counterexample :
    mandelbrot ⟨2 ^ 32, 0⟩ ⟨2, 4, ColorScheme.rainbow, 0, 0, 1⟩ < 0 := by
  have hm : mandelFinal ⟨2 ^ 32, 0⟩ ⟨2, 4, ColorScheme.rainbow, 0, 0, 1⟩ = (2 ^ 32, 0, 1) := by
    rw [mandelFinal, show (FractalConfig.mk 2 4 ColorScheme.rainbow 0 0 1).maxIterations
      = 1 + 1 from rfl, orbitLoop]
    rw [show (1 : ℕ) = 0 + 1 from rfl, orbitLoop]
    norm_num [orbitLoop, mandelStep]
  simp only [mandelbrot, hm]
  norm_num [smoothValue]
  rw [show (18446744073709551616 : ℝ) = 2 ^ (64 : ℕ) by norm_num]
  have h1 : Real.logb 2 ((2 : ℝ) ^ (64 : ℕ)) = 64 := by
    rw [Real.logb_pow, Real.logb_self_eq_one (by norm_num)]
    norm_num
  rw [h1]
  have h2 : Real.logb 2 (64 : ℝ) = 6 := by
    rw [show (64 : ℝ) = 2 ^ (6 : ℕ) by norm_num, Real.logb_pow,
      Real.logb_self_eq_one (by norm_num)]
    norm_num
  rw [h2]
  norm_num

/-- Claim C3, amended: with positive `maxIterations`, `burningShip` always
returns a value in `[0, 1]`; each of `mandelbrot`/`julia` returns exactly 1
when the loop exhausts its iteration budget and otherwise the smoothed value
`(iter - log2(log2(zr² + zi²)) + 4) / maxIterations`, which may lie outside
`[0, 1]`. -/
theorem c3_amended (c z : Point) (cfg : FractalConfig) (hmax : 0 < cfg.maxIterations) :
    (0 ≤ burningShip c cfg ∧ burningShip c cfg ≤ 1) ∧
      ((mandelFinal c cfg).2.2 = cfg.maxIterations → mandelbrot c cfg = 1) ∧
      ((mandelFinal c cfg).2.2 ≠ cfg.maxIterations →
        mandelbrot c cfg =
          smoothValue (mandelFinal c cfg).2.2 (mandelFinal c cfg).1 (mandelFinal c cfg).2.1
            cfg.maxIterations) ∧
      ((juliaFinal z c cfg).2.2 = cfg.maxIterations → julia z c cfg = 1) ∧
      ((juliaFinal z c cfg).2.2 ≠ cfg.maxIterations →
        julia z c cfg =
          smoothValue (juliaFinal z c cfg).2.2 (juliaFinal z c cfg).1 (juliaFinal z c cfg).2.1
            cfg.maxIterations) := by
  refine ⟨?_, fun h => ?_, fun h => ?_, fun h => ?_, fun h => ?_⟩
  · simp only [burningShip]
    by_cases h : (shipFinal c cfg).2.2 = cfg.maxIterations
    · rw [if_pos h]
      norm_num
    · rw [if_neg h]
      have hle : (shipFinal c cfg).2.2 ≤ cfg.maxIterations :=
        orbitLoop_count_le (burningShipStep c.x c.y) cfg.escapeRadius cfg.maxIterations (0, 0)
      constructor
      · exact div_nonneg (by exact_mod_cast Nat.zero_le _) (by exact_mod_cast Nat.zero_le _)
      · rw [div_le_one (by exact_mod_cast hmax)]
        exact_mod_cast hle
  · simp only [mandelbrot]
    rw [if_pos h]
  · simp only [mandelbrot]
    rw [if_neg h]
  · simp only [julia]
    rw [if_pos h]
  · simp only [julia]
    rw [if_neg h]

/-- Witness for C3 at `c = (2, 2)`, `z = (0, 0)` with the default
configuration. -/
theorem c3_witness :
    0 < (DEFAULT_CONFIG).maxIterations ∧
      (0 ≤ burningShip ⟨2, 2⟩ DEFAULT_CONFIG ∧ burningShip ⟨2, 2⟩ DEFAULT_CONFIG ≤ 1) ∧
      ((mandelFinal ⟨2, 2⟩ DEFAULT_CONFIG).2.2 = DEFAULT_CONFIG.maxIterations →
        mandelbrot ⟨2, 2⟩ DEFAULT_CONFIG = 1) ∧
      ((mandelFinal ⟨2, 2⟩ DEFAULT_CONFIG).2.2 ≠ DEFAULT_CONFIG.maxIterations →
        mandelbrot ⟨2, 2⟩ DEFAULT_CONFIG =
          smoothValue (mandelFinal ⟨2, 2⟩ DEFAULT_CONFIG).2.2 (mandelFinal ⟨2, 2⟩ DEFAULT_CONFIG).1
            (mandelFinal ⟨2, 2⟩ DEFAULT_CONFIG).2.1 DEFAULT_CONFIG.maxIterations) ∧
      ((juliaFinal ⟨0, 0⟩ ⟨2, 2⟩ DEFAULT_CONFIG).2.2 = DEFAULT_CONFIG.maxIterations →
        julia ⟨0, 0⟩ ⟨2, 2⟩ DEFAULT_CONFIG = 1) ∧
      ((juliaFinal ⟨0, 0⟩ ⟨2, 2⟩ DEFAULT_CONFIG).2.2 ≠ DEFAULT_CONFIG.maxIterations →
        julia ⟨0, 0⟩ ⟨2, 2⟩ DEFAULT_CONFIG =
          smoothValue (juliaFinal ⟨0, 0⟩ ⟨2, 2⟩ DEFAULT_CONFIG).2.2
            (juliaFinal ⟨0, 0⟩ ⟨2, 2⟩ DEFAULT_CONFIG).1
            (juliaFinal ⟨0, 0⟩ ⟨2, 2⟩ DEFAULT_CONFIG).2.1 DEFAULT_CONFIG.maxIterations) :=
  ⟨by norm_num [DEFAULT_CONFIG],
    c3_amended ⟨2, 2⟩ ⟨0, 0⟩ DEFAULT_CONFIG (by norm_num [DEFAULT_CONFIG])⟩

/-- Claim C4: every point with `|c| ≤ 1/4` (squared magnitude at most `1/16`)
never escapes under the default configuration, so `mandelbrot` returns
exactly 1: the orbit satisfies the invariant `|z| ≤ 1/2`, which keeps the
squared magnitude below the escape radius 4 for all 256 iterations. -/
theorem c4_cardioid (c : Point) (h : c.x * c.x + c.y * c.y ≤ 1/16) :
    mandelbrot c DEFAULT_CONFIG = 1 := by
  have hcount : (mandelFinal c DEFAULT_CONFIG).2.2 = DEFAULT_CONFIG.maxIterations := by
    unfold mandelFinal
    apply orbitLoop_count_of_inv _ _ (fun z => z.1 * z.1 + z.2 * z.2 ≤ 1/4)
    · intro z hz
      exact mandelStep_invariant h hz
    · intro z hz
      rw [show DEFAULT_CONFIG.escapeRadius = 4 from rfl]
      linarith
    · norm_num
  simp only [mandelbrot]
  rw [if_pos hcount]

/-- Witness for C4 at `c = (1/4, 0)`. -/
theorem c4_witness :
    (1/4 : ℚ) * (1/4) + 0 * 0 ≤ 1/16 ∧ mandelbrot ⟨1/4, 0⟩ DEFAULT_CONFIG = 1 :=
  ⟨by norm_num, c4_cardioid ⟨1/4, 0⟩ (by norm_num)⟩

/-- Claim C5: for every scheme, `getColor t scheme` returns three integers in
`[0, 255]` for every `t ∈ [0, 1)`, and `(0, 0, 0)` for every `t ≥ 1`. -/
theorem c5_color_range (t : ℝ) (scheme : ColorScheme) :
    (0 ≤ t → t < 1 →
      0 ≤ (getColor t scheme).1 ∧ (getColor t scheme).1 ≤ 255 ∧
      0 ≤ (getColor t scheme).2.1 ∧ (getColor t scheme).2.1 ≤ 255 ∧
      0 ≤ (getColor t scheme).2.2 ∧ (getColor t scheme).2.2 ≤ 255) ∧
    (1 ≤ t → getColor t scheme = (0, 0, 0)) := by
  constructor
  · intro h0 hlt1
    have hlt : ¬ (1 ≤ t) := not_le.mpr hlt1
    have ht1 : t ≤ 1 := le_of_lt hlt1
    cases scheme with
    | fire =>
      simp only [getColor, if_neg hlt]
      obtain ⟨a1, a2⟩ := @floor_mem_byte (255 * t) (by positivity) (by nlinarith)
      obtain ⟨b1, b2⟩ := @floor_mem_byte (255 * t * t) (by positivity) (by nlinarith)
      exact ⟨a1, a2, b1, b2, le_rfl, by norm_num⟩
    | grayscale =>
      simp only [getColor, if_neg hlt]
      obtain ⟨a1, a2⟩ := @floor_mem_byte (255 * t) (by positivity) (by nlinarith)
      exact ⟨a1, a2, a1, a2, a1, a2⟩
    | ocean =>
      simp only [getColor, if_neg hlt]
      obtain ⟨a1, a2⟩ := @floor_mem_byte (0 + 50 * t) (by positivity) (by nlinarith)
      obtain ⟨b1, b2⟩ := @floor_mem_byte (50 * t + 100 * t * t) (by positivity) (by nlinarith)
      obtain ⟨c1, c2⟩ := @floor_mem_byte (100 + 155 * t) (by positivity) (by nlinarith)
      exact ⟨a1, a2, b1, b2, c1, c2⟩
    | sunset =>
      simp only [getColor, if_neg hlt]
      have hp0 : 0 ≤ t ^ ((7 : ℝ)/10) := Real.rpow_nonneg h0 _
      have hp1 : t ^ ((7 : ℝ)/10) ≤ 1 := Real.rpow_le_one h0 ht1 (by norm_num)
      obtain ⟨a1, a2⟩ := @floor_mem_byte (255 * t ^ ((7 : ℝ)/10)) (by positivity) (by nlinarith)
      obtain ⟨b1, b2⟩ := @floor_mem_byte (100 * t) (by positivity) (by nlinarith)
      obtain ⟨c1, c2⟩ := @floor_mem_byte (50 + 205 * (1 - t)) (by nlinarith) (by nlinarith)
      exact ⟨a1, a2, b1, b2, c1, c2⟩
    | rainbow =>
      simp only [getColor, if_neg hlt, hslToRgb]
      rw [if_neg (by norm_num : (1 : ℝ) ≠ 0)]
      norm_num
      obtain ⟨ha1, ha2⟩ := @hue2rgb_mem (t + 1/3) (by linarith) (by linarith)
      obtain ⟨hb1, hb2⟩ := @hue2rgb_mem t (by linarith) (by linarith)
      obtain ⟨hc1, hc2⟩ := @hue2rgb_mem (t - 1/3) (by linarith) (by linarith)
      obtain ⟨A1, A2⟩ := @floor_mem_byte (hue2rgb 0 1 (t + 1/3) * 255) (by nlinarith) (by nlinarith)
      obtain ⟨B1, B2⟩ := @floor_mem_byte (hue2rgb 0 1 t * 255) (by nlinarith) (by nlinarith)
      obtain ⟨C1, C2⟩ := @floor_mem_byte (hue2rgb 0 1 (t - 1/3) * 255) (by nlinarith) (by nlinarith)
      exact ⟨A1, A2, B1, B2, C1, C2⟩
  · intro hge
    cases scheme <;> simp [getColor, if_pos hge]

/-- Witness for C5 at `t = 1/2` (fire) and `t = 2` (ocean). -/
theorem c5_witness :
    (0 ≤ (getColor (1/2) ColorScheme.fire).1 ∧ (getColor (1/2) ColorScheme.fire).1 ≤ 255 ∧
      0 ≤ (getColor (1/2) ColorScheme.fire).2.1 ∧ (getColor (1/2) ColorScheme.fire).2.1 ≤ 255 ∧
      0 ≤ (getColor (1/2) ColorScheme.fire).2.2 ∧ (getColor (1/2) ColorScheme.fire).2.2 ≤ 255) ∧
      getColor 2 ColorScheme.ocean = (0, 0, 0) :=
  ⟨(c5_color_range (1/2) ColorScheme.fire).1 (by norm_num) (by norm_num),
    (c5_color_range 2 ColorScheme.ocean).2 (by norm_num)⟩

/-- Claim C6: the renderer's viewport satisfies
`yMax - yMin = (xMax - xMin) * height / width` for every configuration and
positive width: the vertical span is the horizontal span scaled by the
surface's aspect ratio. -/
theorem c6_aspect (cfg : FractalConfig) (width height : ℕ) (hw : 0 < width) :
    (viewport cfg width height).yMax - (viewport cfg width height).yMin =
      ((viewport cfg width height).xMax - (viewport cfg width height).xMin)
        * (height : ℚ) / (width : ℚ) := by
  simp only [viewport]
  ring

/-- Witness for C6 at width 200, height 100, default configuration
(zoom 1): the vertical span is half the horizontal span. -/
theorem c6_witness :
    0 < 200 ∧
      (viewport DEFAULT_CONFIG 200 100).yMax - (viewport DEFAULT_CONFIG 200 100).yMin =
        ((viewport DEFAULT_CONFIG 200 100).xMax - (viewport DEFAULT_CONFIG 200 100).xMin)
          * (100 : ℚ) / (200 : ℚ) :=
  ⟨by norm_num, c6_aspect DEFAULT_CONFIG 200 100 (by norm_num)⟩

/-- Claim C7: when the drawing context is unavailable, `renderFractal`
returns without writing anything: the canvas is returned unchanged. -/
theorem c7_noop (canvas : Canvas) (type : String) (cfg : FractalConfig)
    (jc : Option Point) (h : canvas.ctx = none) :
    renderFractal canvas type cfg jc = canvas := by
  unfold renderFractal
  rw [h]

/-- Witness for C7 on a 3-by-2 canvas without a context. -/
theorem c7_witness :
    (Canvas.mk 3 2 none).ctx = none ∧
      renderFractal (Canvas.mk 3 2 none) "mandelbrot" DEFAULT_CONFIG none = Canvas.mk 3 2 none :=
  ⟨rfl, c7_noop (Canvas.mk 3 2 none) "mandelbrot" DEFAULT_CONFIG none rfl⟩

/-- Claim C8: two renders with identical surface dimensions, fractal type,
configuration and Julia constant commit byte-identical buffers, whatever the
surfaces' prior contents — the computation is deterministic. -/
theorem c8_deterministic (c1 c2 : Canvas) (type : String) (cfg : FractalConfig)
    (jc : Option Point) (hw : c1.width = c2.width) (hh : c1.height = c2.height)
    (h1 : c1.ctx.isSome) (h2 : c2.ctx.isSome) :
    (renderFractal c1 type cfg jc).ctx = (renderFractal c2 type cfg jc).ctx := by
  obtain ⟨w1, t1, ctx1⟩ := c1
  obtain ⟨w2, t2, ctx2⟩ := c2
  have hw' : w1 = w2 := hw
  have hh' : t1 = t2 := hh
  cases ctx1 with
  | none => simp at h1
  | some b1 =>
    cases ctx2 with
    | none => simp at h2
    | some b2 =>
      have e1 : (renderFractal ⟨w1, t1, some b1⟩ type cfg jc).ctx
          = some (renderBuffer type cfg (jc.getD defaultJuliaC) w1 t1) := rfl
      have e2 : (renderFractal ⟨w2, t2, some b2⟩ type cfg jc).ctx
          = some (renderBuffer type cfg (jc.getD defaultJuliaC) w2 t2) := rfl
      rw [e1, e2, hw', hh']

/-- Witness for C8 on two 2-by-2 canvases with different prior buffers. -/
theorem c8_witness :
    (renderFractal (Canvas.mk 2 2 (some [7])) "mandelbrot" DEFAULT_CONFIG none).ctx =
      (renderFractal (Canvas.mk 2 2 (some [])) "mandelbrot" DEFAULT_CONFIG none).ctx :=
  c8_deterministic (Canvas.mk 2 2 (some [7])) (Canvas.mk 2 2 (some []))
    "mandelbrot" DEFAULT_CONFIG none rfl rfl rfl rfl

/-- Claim C9: whenever the loop exits with `iter = maxIterations`, each of
`mandelbrot`, `julia` and `burningShip` returns exactly 1, even when the
final state's squared magnitude has reached the escape radius — the
`iter === maxIterations` check takes precedence. -/
theorem c9_interior_precedence (c z : Point) (cfg : FractalConfig) :
    (cfg.escapeRadius ≤ (mandelFinal c cfg).1 * (mandelFinal c cfg).1 +
          (mandelFinal c cfg).2.1 * (mandelFinal c cfg).2.1 →
        (mandelFinal c cfg).2.2 = cfg.maxIterations → mandelbrot c cfg = 1) ∧
      (cfg.escapeRadius ≤ (juliaFinal z c cfg).1 * (juliaFinal z c cfg).1 +
          (juliaFinal z c cfg).2.1 * (juliaFinal z c cfg).2.1 →
        (juliaFinal z c cfg).2.2 = cfg.maxIterations → julia z c cfg = 1) ∧
      (cfg.escapeRadius ≤ (shipFinal c cfg).1 * (shipFinal c cfg).1 +
          (shipFinal c cfg).2.1 * (shipFinal c cfg).2.1 →
        (shipFinal c cfg).2.2 = cfg.maxIterations → burningShip c cfg = 1) := by
  refine ⟨fun _ h => ?_, fun _ h => ?_, fun _ h => ?_⟩
  · simp only [mandelbrot]
    rw [if_pos h]
  · simp only [julia]
    rw [if_pos h]
  · simp only [burningShip]
    rw [if_pos h]

/-- Witness for C9: with `maxIterations = 1` and `escapeRadius = 4`, the
orbit of `c = (2, 2)` reaches squared magnitude 8 exactly at iteration 1,
and all three functions return 1. -/
theorem c9_witness :
    mandelbrot ⟨2, 2⟩ ⟨1, 4, ColorScheme.rainbow, 0, 0, 1⟩ = 1 ∧
      julia ⟨0, 0⟩ ⟨2, 2⟩ ⟨1, 4, ColorScheme.rainbow, 0, 0, 1⟩ = 1 ∧
      burningShip ⟨2, 2⟩ ⟨1, 4, ColorScheme.rainbow, 0, 0, 1⟩ = 1 := by
  obtain ⟨h1, h2, h3⟩ :=
    c9_interior_precedence ⟨2, 2⟩ ⟨0, 0⟩ ⟨1, 4, ColorScheme.rainbow, 0, 0, 1⟩
  have hm : mandelFinal ⟨2, 2⟩ ⟨1, 4, ColorScheme.rainbow, 0, 0, 1⟩ = (2, 2, 1) := by
    rw [mandelFinal, show (FractalConfig.mk 1 4 ColorScheme.rainbow 0 0 1).maxIterations
      = 0 + 1 from rfl, orbitLoop]
    norm_num [orbitLoop, mandelStep]
  have hju : juliaFinal ⟨0, 0⟩ ⟨2, 2⟩ ⟨1, 4, ColorScheme.rainbow, 0, 0, 1⟩ = (2, 2, 1) := by
    rw [juliaFinal, show (FractalConfig.mk 1 4 ColorScheme.rainbow 0 0 1).maxIterations
      = 0 + 1 from rfl, orbitLoop]
    norm_num [orbitLoop, mandelStep]
  have hs : shipFinal ⟨2, 2⟩ ⟨1, 4, ColorScheme.rainbow, 0, 0, 1⟩ = (2, 2, 1) := by
    rw [shipFinal, show (FractalConfig.mk 1 4 ColorScheme.rainbow 0 0 1).maxIterations
      = 0 + 1 from rfl, orbitLoop]
    norm_num [orbitLoop, burningShipStep]
  refine ⟨h1 ?_ ?_, h2 ?_ ?_, h3 ?_ ?_⟩
  · rw [hm]; norm_num
  · rw [hm]
  · rw [hju]; norm_num
  · rw [hju]
  · rw [hs]; norm_num
  · rw [hs]

/-- Claim C10: every `type` other than `"mandelbrot"` and `"burningShip"`
(including `"julia"` and unrecognized strings) makes the per-pixel dispatch
call `julia` with the supplied-or-default constant, and makes `renderFractal`
behave exactly as with `type = "julia"` — no failure, no mandelbrot or
burning-ship rendering. -/
theorem c10_default_dispatch (type : String) (h1 : type ≠ "mandelbrot")
    (h2 : type ≠ "burningShip") :
    (∀ (cfg : FractalConfig) (jc : Point) (x y : ℚ),
        pixelValue type cfg jc x y = julia ⟨x, y⟩ jc cfg) ∧
      ∀ (canvas : Canvas) (cfg : FractalConfig) (jc : Option Point),
        renderFractal canvas type cfg jc = renderFractal canvas "julia" cfg jc := by
  constructor
  · intro cfg jc x y
    simp [pixelValue, h1, h2]
  · intro canvas cfg jc
    simp [renderFractal, renderBuffer, renderPixel, pixelValue, h1, h2]

/-- Witness for C10 with the unrecognized type `"foo"`. -/
theorem c10_witness :
    pixelValue "foo" DEFAULT_CONFIG defaultJuliaC 0 0 =
        julia ⟨0, 0⟩ defaultJuliaC DEFAULT_CONFIG ∧
      renderFractal (Canvas.mk 1 1 (some [])) "foo" DEFAULT_CONFIG none =
        renderFractal (Canvas.mk 1 1 (some [])) "julia" DEFAULT_CONFIG none := by
  obtain ⟨ha, hb⟩ := c10_default_dispatch "foo" (by decide) (by decide)
  exact ⟨ha DEFAULT_CONFIG defaultJuliaC 0 0, hb (Canvas.mk 1 1 (some [])) DEFAULT_CONFIG none⟩
